import Mathlib

/-!
Verification of the common-issues subsystem of the bridget bot
(src/bridget/cogs/issues.py), shallowly embedded in Lean.

Python strings are modelled as Lean `String`s (both measure length in
unicode codepoints).  The Python string methods used by the source
(`replace`, `strip`, `startswith`, `split(' ')`, `' '.join`) are
re-implemented here on `List Char` by structural recursion so that every
definition evaluates inside the kernel.  Whitespace for `strip` is
approximated by ASCII whitespace (the labels and footers handled by the
bot are ASCII apart from emoji).
-/

namespace Bridget

/-- Equality of command results is decidable. -/
instance {ε α : Type} [DecidableEq ε] [DecidableEq α] : DecidableEq (Except ε α) := fun x y =>
  match x, y with
  | .error a, .error b =>
    if h : a = b then isTrue (by rw [h])
    else isFalse (by intro hh; cases hh; exact h rfl)
  | .ok a, .ok b =>
    if h : a = b then isTrue (by rw [h])
    else isFalse (by intro hh; cases hh; exact h rfl)
  | .error _, .ok _ => isFalse (by intro hh; cases hh)
  | .ok _, .error _ => isFalse (by intro hh; cases hh)

/-- Python `str.replace(pat, '')` (all non-overlapping occurrences, left to
right), specialised to an empty replacement as used at issues.py:75.
Runs on fuel so that it is structural; fuel `s.length` is enough because a
non-empty pattern consumes at least one character per step. -/
def replaceAllAux (pat : List Char) : Nat → List Char → List Char
  | 0, s => s
  | _ + 1, [] => []
  | fuel + 1, c :: rest =>
    if pat ≠ [] ∧ pat.isPrefixOf (c :: rest) then
      replaceAllAux pat fuel ((c :: rest).drop pat.length)
    else
      c :: replaceAllAux pat fuel rest

/-- Python `label.replace(emoji, '')`. -/
def pyReplaceEmpty (s pat : String) : String :=
  String.mk (replaceAllAux pat.data s.data.length s.data)

/-- Python `str.strip()` (ASCII-whitespace approximation). -/
def pyStrip (s : List Char) : List Char :=
  ((s.dropWhile Char.isWhitespace).reverse.dropWhile Char.isWhitespace).reverse

/-- Python `str.strip()` on `String`. -/
def pyStripStr (s : String) : String :=
  String.mk (pyStrip s.data)

/-- Python `str.startswith(p)`. -/
def pyStartsWith (s p : String) : Bool :=
  p.data.isPrefixOf s.data

/-- Python `str.split(' ')`: split on every single space, keeping empty
pieces. -/
def pySplitSpace : List Char → List (List Char)
  | [] => [[]]
  | c :: rest =>
    match pySplitSpace rest with
    | [] => [[c]]
    | w :: ws => if c = ' ' then [] :: w :: ws else (c :: w) :: ws

/-- Python `' '.join(ws)`. -/
def pyJoinSpace : List (List Char) → List Char
  | [] => []
  | [w] => w
  | w :: ws => w ++ ' ' :: pyJoinSpace ws

/-- Python `' '.join(s.split(' ')[2:])`, the footer-tag extraction of
issues.py:179. -/
def dropTwoWords (s : String) : String :=
  String.mk (pyJoinSpace ((pySplitSpace s.data).drop 2))

/-- Python truthiness of an optional string (`None` and `""` are falsy). -/
def truthyStr : Option String → Option String
  | none => none
  | some s => if s = "" then none else some s

/-! ## The Issue record

`model.issues.Issue` itself is not under src/ (only the cog importing it
is), so the record layout is taken from the spec's data model: the fields
are exactly the attributes the cog reads and writes. -/

/-- An image blob stored with an issue: an opaque handle for the bytes
plus the content-type string, mirroring the proxy object whose `read()`
returns `None` exactly when no blob is stored. -/
structure StoredImage where
  data : Nat
  content_type : String
deriving Repr, DecidableEq

/-- Modelled from the spec: the Issue record (`model.issues` is not under
src/).  Field names follow the attributes used by the cog. `image` is
`none` when `issue.image.read()` would return `None`; `color` is `none`
when no explicit color was ever stored. -/
structure Issue where
  name : String
  content : String
  added_date : Nat
  added_by_id : Nat
  added_by_tag : String
  image : Option StoredImage
  button_links : Option (List (String × String))
  color : Option Nat
  panic_string : String
  message_id : Nat
deriving Repr, DecidableEq

/-- Modelled from the spec: `utils.utils.hash_color` is imported by the
cog but its module is not under src/; the spec says only that a display
color is deterministically derived from hashing the issue name.  A
deterministic 24-bit polynomial string hash. -/
def hash_color (name : String) : Nat :=
  name.data.foldl (fun h c => (h * 31 + c.toNat) % 16777216) 7

/-- Modelled from the spec/source use: `discord.Color.from_str` applied to
the hexadecimal color string passed to the add/edit commands (for example
`"#ff0000"`). -/
def hexDigitVal (c : Char) : Nat :=
  if c.isDigit then c.toNat - 48
  else if 'a' ≤ c ∧ c ≤ 'f' then c.toNat - 87
  else if 'A' ≤ c ∧ c ≤ 'F' then c.toNat - 55
  else 0

def color_from_str (s : String) : Nat :=
  (s.data.filter (fun c => c ≠ '#')).foldl (fun a c => a * 16 + hexDigitVal c) 0

/-! ## Issue Presenter: prepare_issue_embed (issues.py:38-61) -/

/-- The display payload of a rendered issue embed. -/
structure EmbedModel where
  title : String
  description : String
  timestamp : Nat
  color : Nat
  image_url : Option String
  footer_text : String
deriving Repr, DecidableEq

/-- Python `Color(issue.color).value or hash_color(issue.name).value`
(issues.py:54): `or` yields the right operand when the left one is falsy,
i.e. when the stored color is `None` or `0`. -/
def pyColorOr (c : Option Nat) (d : Nat) : Nat :=
  match c with
  | none => d
  | some v => if v = 0 then d else v

/-- issues.py:38-61. -/
def prepare_issue_embed (issue : Issue) : EmbedModel :=
  { title := issue.name
    description := issue.content
    timestamp := issue.added_date
    color := pyColorOr issue.color (hash_color issue.name)
    image_url := issue.image.map (fun img =>
      if img.content_type = "image/gif" then "attachment://image.gif"
      else "attachment://image.png")
    footer_text := "Submitted by " ++ issue.added_by_tag }

/-! ## Issue Presenter: prepare_issue_view (issues.py:64-86)

The regex `<:\d+>|<:.+?:\d+>|<a:.+:\d+>|[\U00010000-\U0010ffff]` of
issues.py:72 is embedded directly: `re.search` returns the match at the
leftmost position, trying the four alternatives in order at each
position.  `\d` is modelled as an ASCII digit and `.` as any character
other than a newline. -/

/-- Matches `\d+>` at the front of the list, returning the consumed
characters (including the `>`) and the remainder. -/
def digitsThenGt (cs : List Char) : Option (List Char × List Char) :=
  match cs.takeWhile Char.isDigit, cs.dropWhile Char.isDigit with
  | [], _ => none
  | ds, '>' :: r => some (ds ++ ['>'], r)
  | _, _ => none

/-- Alternative `<:\d+>`. -/
def matchAlt1 : List Char → Option (List Char)
  | '<' :: ':' :: rest =>
    match digitsThenGt rest with
    | some (m, _) => some ('<' :: ':' :: m)
    | none => none
  | _ => none

/-- The `.+?:\d+>` tail of alternative `<:.+?:\d+>`: the lazy `.+?` takes
as few characters as possible. -/
def alt2Middle (acc : List Char) : List Char → Option (List Char)
  | [] => none
  | c :: rest =>
    if c = '\n' then none
    else
      match rest with
      | ':' :: r2 =>
        match digitsThenGt r2 with
        | some (m, _) => some ((acc ++ [c]) ++ ':' :: m)
        | none => alt2Middle (acc ++ [c]) rest
      | _ => alt2Middle (acc ++ [c]) rest

/-- Alternative `<:.+?:\d+>`. -/
def matchAlt2 : List Char → Option (List Char)
  | '<' :: ':' :: rest =>
    match alt2Middle [] rest with
    | some m => some ('<' :: ':' :: m)
    | none => none
  | _ => none

/-- The `.+:\d+>` tail of alternative `<a:.+:\d+>`: the greedy `.+` takes
as many characters as possible, backtracking from the longest. -/
def alt3Middle (acc : List Char) : List Char → Option (List Char)
  | [] => none
  | c :: rest =>
    if c = '\n' then none
    else
      match alt3Middle (acc ++ [c]) rest with
      | some m => some m
      | none =>
        match rest with
        | ':' :: r2 =>
          match digitsThenGt r2 with
          | some (m, _) => some ((acc ++ [c]) ++ ':' :: m)
          | none => none
        | _ => none

/-- Alternative `<a:.+:\d+>`. -/
def matchAlt3 : List Char → Option (List Char)
  | '<' :: 'a' :: ':' :: rest =>
    match alt3Middle [] rest with
    | some m => some ('<' :: 'a' :: ':' :: m)
    | none => none
  | _ => none

/-- Alternative `[\U00010000-\U0010ffff]`: one supplementary-plane
character. -/
def matchAlt4 : List Char → Option (List Char)
  | c :: _ => if 65536 ≤ c.toNat then some [c] else none
  | [] => none

/-- Attempt of the whole alternation at one position. -/
def emojiMatchAt (cs : List Char) : Option (List Char) :=
  match matchAlt1 cs with
  | some m => some m
  | none =>
    match matchAlt2 cs with
    | some m => some m
    | none =>
      match matchAlt3 cs with
      | some m => some m
      | none => matchAlt4 cs

/-- `re.search`: the match at the leftmost matching position. -/
def emojiSearch : List Char → Option (List Char)
  | [] => none
  | c :: rest =>
    match emojiMatchAt (c :: rest) with
    | some m => some m
    | none => emojiSearch rest

/-- One rendered link button. -/
structure ButtonModel where
  label : String
  url : String
  emoji : Option String
deriving Repr, DecidableEq

/-- The per-button body of the loop of issues.py:69-84. -/
def renderButton (label url : String) : ButtonModel :=
  match emojiSearch label.data with
  | some m =>
    { label := pyStripStr (pyReplaceEmpty label (pyStripStr (String.mk m)))
      url := url
      emoji := some (pyStripStr (String.mk m)) }
  | none => { label := label, url := url, emoji := none }

/-- issues.py:64-86; `none` models the `discord.utils.MISSING` sentinel
returned when the issue has no button links (`None` or the empty list). -/
def prepare_issue_view (issue : Issue) : Option (List ButtonModel) :=
  match issue.button_links with
  | none => none
  | some [] => none
  | some links => some (links.map (fun p => renderButton p.1 p.2))

/-! ## Common-Issues Index: refresh_common_issues (issues.py:88-126)

The function deletes the previously persisted index messages (failures
tolerated, no modelled state is affected), then walks the issue list
accumulating one line per issue into `desc`, flushing a page whenever
`len(desc) > 3072` *after* appending, and finally flushing any non-empty
remainder.  The first page's embed title is "Table of Contents"; every
later embed is created with an empty title.  Each flush sends one message
whose id is appended to the persisted id list. -/

/-- One posted table-of-contents page; the footer of the sent embed is
`"Page " ++ Nat.repr page`. -/
structure IndexPage where
  title : String
  description : String
  page : Nat
deriving Repr, DecidableEq

/-- The footer text set by `embed.set_footer(text=f"Page {page}")`. -/
def IndexPage.footer (pg : IndexPage) : String :=
  "Page " ++ Nat.repr pg.page

/-- The line appended for issue number `i` (0-based) at issues.py:109. -/
def indexLine (gid cid : Nat) (i : Nat) (issue : Issue) : String :=
  Nat.repr (i + 1) ++ ". [" ++ issue.name ++ "](https://discord.com/channels/"
    ++ Nat.repr gid ++ "/" ++ Nat.repr cid ++ "/" ++ Nat.repr issue.message_id ++ ")\n"

/-- State of the rebuild loop after processing a suffix of the issues:
the pages flushed so far, plus the live embed title, buffer and page
counter. -/
structure RefreshState where
  pages : List IndexPage
  title : String
  desc : String
  page : Nat
deriving Repr, DecidableEq

/-- The `for i, issue in enumerate(...)` loop of issues.py:108-117. -/
def refreshLoop (gid cid : Nat) : String → Nat → String → Nat → List Issue → RefreshState
  | title, _, desc, page, [] => ⟨[], title, desc, page⟩
  | title, i, desc, page, issue :: rest =>
    if (desc ++ indexLine gid cid i issue).length > 3072 then
      { refreshLoop gid cid "" (i + 1) "" (page + 1) rest with
        pages := ⟨title, desc ++ indexLine gid cid i issue, page + 1⟩ ::
          (refreshLoop gid cid "" (i + 1) "" (page + 1) rest).pages }
    else
      refreshLoop gid cid title (i + 1) (desc ++ indexLine gid cid i issue) page rest

/-- issues.py:103-124: the pages posted by one rebuild, in posting order. -/
def refresh_common_issues (gid cid : Nat) (issues : List Issue) : List IndexPage :=
  (refreshLoop gid cid "Table of Contents" 0 "" 0 issues).pages ++
    (if (refreshLoop gid cid "Table of Contents" 0 "" 0 issues).desc.length > 0 then
      [⟨(refreshLoop gid cid "Table of Contents" 0 "" 0 issues).title,
        (refreshLoop gid cid "Table of Contents" 0 "" 0 issues).desc,
        (refreshLoop gid cid "Table of Contents" 0 "" 0 issues).page + 1⟩]
    else [])

/-- The message-id list persisted by `guild_service.edit_issues_list(ids)`
(issues.py:126): one message id per posted page, in posting order;
`sendId k` is the id the platform assigns to the `k`-th sent page. -/
def issues_list_ids (sendId : Nat → Nat) (pages : List IndexPage) : List Nat :=
  (List.range pages.length).map sendId

/-! Length-level simulation of the rebuild loop, used to reason about page
counts and sizes without rebuilding the page strings. -/

/-- Length/page-number image of `RefreshState`. -/
structure SimState where
  pages : List (Nat × Nat)
  descLen : Nat
  page : Nat
deriving Repr, DecidableEq

/-- `refreshLoop` seen through description lengths only. -/
def paginateSim : Nat → Nat → List Nat → SimState
  | descLen, page, [] => ⟨[], descLen, page⟩
  | descLen, page, l :: rest =>
    if descLen + l > 3072 then
      { paginateSim 0 (page + 1) rest with
        pages := (descLen + l, page + 1) :: (paginateSim 0 (page + 1) rest).pages }
    else
      paginateSim (descLen + l) page rest

/-- `refresh_common_issues` seen through description lengths only. -/
def simPages (lens : List Nat) : List (Nat × Nat) :=
  (paginateSim 0 0 lens).pages ++
    (if (paginateSim 0 0 lens).descLen > 0 then
      [((paginateSim 0 0 lens).descLen, (paginateSim 0 0 lens).page + 1)]
    else [])

/-- The lengths of the rendered index lines, starting at issue number `i`. -/
def lineLens (gid cid : Nat) : Nat → List Issue → List Nat
  | _, [] => []
  | i, issue :: rest => (indexLine gid cid i issue).length :: lineLens gid cid (i + 1) rest

/-! ## Issue Store (spec-modelled)

Modelled from the spec: `utils.services.guild_service` is not under src/;
section 4.1 gives its contract (`get`, `add`, `edit` = replace by name,
`remove`, ordered `list`).  The store is the ordered list of issues. -/

/-- Modelled from the spec: `guild_service.get_issue(name)`. -/
def get_issue (store : List Issue) (name : String) : Option Issue :=
  store.find? (fun i => i.name == name)

/-- Modelled from the spec: `guild_service.add_issue(issue)` appends in
persisted order. -/
def add_issue (store : List Issue) (issue : Issue) : List Issue :=
  store ++ [issue]

/-- Modelled from the spec: `guild_service.edit_issue(issue)` replaces by
`name`. -/
def edit_issue (store : List Issue) (issue : Issue) : List Issue :=
  store.map (fun i => if i.name == issue.name then issue else i)

/-- Modelled from the spec: `guild_service.remove_issue(name)`. -/
def remove_issue (store : List Issue) (name : String) : List Issue :=
  store.filter (fun i => ¬ i.name == name)

/-! ## The add and edit commands (issues.py:250-381)

The platform-side effects (modal dialog, message sends) enter as explicit
parameters: `modal` is the outcome of the (spec-modelled, utils.modals is
not under src/) issue modal — `none` when the author cancelled it — and
`sentId` is the id of the message posted to the common-issues channel.
A raised `commands.BadArgument` is an `Except.error` carrying the
user-facing message. -/

/-- A command attachment: content-type, byte size, and an opaque handle
for the bytes returned by `attachment.read()`. -/
structure Attachment where
  content_type : String
  size : Nat
  bytes : Nat
deriving Repr, DecidableEq

/-- Modelled from the spec: the data collected by `IssueModal`
(utils.modals is not under src/): the free-text body and the author
identity recorded on the new issue. -/
structure ModalData where
  content : String
  added_by_id : Nat
  added_by_tag : String
  added_date : Nat
deriving Repr, DecidableEq

/-- Modelled from the spec: the issue object produced by `IssueModal` for
the given name, before the add command fills in image, message id, panic
keyword and color. -/
def modalIssue (name : String) (md : ModalData) : Issue :=
  { name := name
    content := md.content
    added_date := md.added_date
    added_by_id := md.added_by_id
    added_by_tag := md.added_by_tag
    image := none
    button_links := none
    color := none
    panic_string := ""
    message_id := 0 }

namespace IssuesGroup

/-- The content types accepted by the add command (issues.py:270-274). -/
def allowed_content_types : List String :=
  ["image/png", "image/jpeg", "image/gif", "image/webp"]

/-- The issue record stored by a successful add (issues.py:286-309): the
modal issue with the attachment bytes put on it, the id of the posted
message, `panic_keyword or ''`, and `Color.from_str(color) if color else
hash_color(name)`. -/
def addPayload (name : String) (md : ModalData) (image : Option Attachment)
    (panic_keyword : Option String) (color : Option String) (sentId : Nat) : Issue :=
  { modalIssue name md with
    image := image.map (fun att => ⟨att.bytes, att.content_type⟩)
    message_id := sentId
    panic_string := (truthyStr panic_keyword).getD ""
    color := some (match truthyStr color with
      | some c => color_from_str c
      | none => hash_color name) }

/-- The tail of the add command after validation (issues.py:282-309): a
cancelled modal stores nothing, a completed one stores the payload. -/
def addFinish (store : List Issue) (name : String) (image : Option Attachment)
    (panic_keyword : Option String) (color : Option String)
    (modal : Option ModalData) (sentId : Nat) : Except String (List Issue) :=
  match modal with
  | none => .ok store
  | some md => .ok (add_issue store (addPayload name md image panic_keyword color sentId))

/-- issues.py:253-309 (`/commonissue add`), up to and including the store
update.  The subsequent index rebuild posts `refresh_common_issues` pages
and the transient confirmation is not part of the store state. -/
def add (store : List Issue) (name : String) (image : Option Attachment)
    (panic_keyword : Option String) (color : Option String)
    (modal : Option ModalData) (sentId : Nat) : Except String (List Issue) :=
  if (get_issue store name).isSome then
    .error "Issue with that name already exists."
  else
    match image with
    | some att =>
      if ¬ allowed_content_types.contains att.content_type then
        .error "Attached file was not an image!"
      else if att.size > 8000000 then
        .error "That image is too big!"
      else
        addFinish store name image panic_keyword color modal sentId
    | none =>
      addFinish store name image panic_keyword color modal sentId

/-! issues.py:321-377 (`/commonissue edit`).  `modal` is the outcome of
the (spec-modelled) EditIssueModal: the new body text, or `none` when the
edit was cancelled.  The source checks only the attachment size; its
comment announces an image check but no content-type validation follows
(compare `add`).  When no attachment is supplied the stored blob is
deleted (`issue.image.delete()`, issues.py:351).

Known granularity limit of this embedding: the source mutates the image
blob (delete/replace, issues.py:344-351) at the database layer *before*
showing the modal, so a cancelled edit still loses or replaces the raw
blob even though the record is never re-saved; this store-level model
keeps the record (and hence the blob) unchanged on the cancel path.  No
theorem below exercises the cancel path. -/

/-- The issue record stored by a successful edit (issues.py:344-372): the
attachment bytes replace the stored blob when an attachment was supplied,
otherwise `issue.image.delete()` leaves no blob; the modal's new body
text, `panic_keyword or ''`, and `Color.from_str(color) if color else
hash_color(name)`. -/
def editPayload (issue : Issue) (name : String) (image : Option Attachment)
    (panic_keyword : Option String) (color : Option String)
    (newContent : String) : Issue :=
  { issue with
    image := image.map (fun att => ⟨att.bytes, att.content_type⟩)
    content := newContent
    panic_string := (truthyStr panic_keyword).getD ""
    color := some (match truthyStr color with
      | some c => color_from_str c
      | none => hash_color name) }

/-- The tail of the edit command after the image handling
(issues.py:353-377): a cancelled modal stores nothing, a completed one
replaces the record by name. -/
def editFinish (store : List Issue) (issue : Issue) (name : String)
    (image : Option Attachment) (panic_keyword : Option String)
    (color : Option String) (modal : Option String) : Except String (List Issue) :=
  match modal with
  | none => .error "Issue edit was cancelled."
  | some newContent =>
    .ok (edit_issue store (editPayload issue name image panic_keyword color newContent))

/-- The command body of issues.py:321-377. -/
def edit (store : List Issue) (name : String) (image : Option Attachment)
    (panic_keyword : Option String) (color : Option String)
    (modal : Option String) : Except String (List Issue) :=
  match get_issue store name with
  | none => .error "That issue does not exist."
  | some issue =>
    match image with
    | some att =>
      if att.size > 8000000 then
        .error "That image is too big!"
      else
        editFinish store issue name image panic_keyword color modal
    | none =>
      editFinish store issue name image panic_keyword color modal

end IssuesGroup

/-! ## Reindexer: do_reindex (issues.py:128-153)

Per issue, the fetch-and-delete of the stale message sits inside
`try/except: pass` (a failure is swallowed), while the re-send is
unguarded: an exception raised by it propagates and ends the background
task, leaving the current and all remaining issues untouched. -/

/-- The platform world a reindex run interacts with: whether the
fetch+delete of a given stale message id succeeds, whether the `k`-th
send succeeds, and the id the platform assigns to the `k`-th sent
message. -/
structure ReindexEnv where
  fetchDeleteOk : Nat → Bool
  sendOk : Nat → Bool
  sendId : Nat → Nat

/-- The loop of issues.py:131-149: returns the resulting store, the ids
of the stale messages successfully deleted, and whether the batch aborted
on a send failure. -/
def reindexLoop (env : ReindexEnv) : Nat → List Issue → List Issue × List Nat × Bool
  | _, [] => ([], [], false)
  | k, issue :: rest =>
    if env.sendOk k then
      ({ issue with message_id := env.sendId k } :: (reindexLoop env (k + 1) rest).1,
        (if env.fetchDeleteOk issue.message_id then [issue.message_id] else []) ++
          (reindexLoop env (k + 1) rest).2.1,
        (reindexLoop env (k + 1) rest).2.2)
    else
      (issue :: rest,
        (if env.fetchDeleteOk issue.message_id then [issue.message_id] else []),
        true)

/-- Result of a reindex run; `pages` is `none` when the batch aborted
before reaching the index rebuild of issues.py:152. -/
structure ReindexResult where
  store : List Issue
  deletedOld : List Nat
  pages : Option (List IndexPage)
  aborted : Bool
deriving Repr, DecidableEq

/-- issues.py:128-153. -/
def do_reindex (env : ReindexEnv) (gid cid : Nat) (store : List Issue) : ReindexResult :=
  if (reindexLoop env 0 store).2.2 then
    ⟨(reindexLoop env 0 store).1, (reindexLoop env 0 store).2.1, none, true⟩
  else
    ⟨(reindexLoop env 0 store).1, (reindexLoop env 0 store).2.1,
      some (refresh_common_issues gid cid (reindexLoop env 0 store).1), false⟩

/-- The store produced by a reindex batch in which every send succeeds:
issue `j` gets message id `sendId (k + j)`, everything else unchanged. -/
def reindexMap (env : ReindexEnv) : Nat → List Issue → List Issue
  | _, [] => []
  | k, issue :: rest =>
    { issue with message_id := env.sendId k } :: reindexMap env (k + 1) rest

/-! ## Importer: do_import (issues.py:156-204) -/

/-- The first embed of a scanned history message. -/
structure HistEmbed where
  title : String
  description : String
  timestamp : Nat
  color : Nat
  footer_text : Option String
  image_url : Option String
deriving Repr, DecidableEq

/-- A message scanned from the channel history. -/
structure HistMessage where
  author_bot : Bool
  embeds : List HistEmbed
  buttons : List (String × String)
  id : Nat
deriving Repr, DecidableEq

/-- The platform world an import run interacts with.  `fetchImage url`
models the handled result of `get_discord_file_from_url` (issues.py:24-36):
the downloaded bytes, or `None` on a non-200 response; `fetchRaises url`
models the HTTP client raising during that download (an unhandled
exception).  `sendOk k` / `sendId k` say whether the `k`-th send succeeds
and which id the platform assigns to it; `deleteOk id` says whether
deleting the history message `id` succeeds.  None of the per-message steps
of issues.py:160-200 sits in a try/except, so any raising step ends the
background task. -/
structure ImportEnv where
  fetchImage : String → Option Nat
  fetchRaises : String → Bool
  sendOk : Nat → Bool
  sendId : Nat → Nat
  deleteOk : Nat → Bool

/-- Running state of an import scan. -/
structure ImportState where
  store : List Issue
  deleted : List Nat
  posted : Nat
deriving Repr, DecidableEq

/-- The per-message body of the history loop of issues.py:160-200,
returning the state and whether the step raised (aborting the scan).  The
source order is: image download (may raise, before any store change),
send (may raise, before any store change), store update, deletion of the
original message (may raise, after the store update).  The final
`elif embed.title.startswith('Table of')` of the source is kept in place
even though it is unreachable: the scan `continue`s earlier on any footer
that does not start with "Submitted by". -/
def importMsg (env : ImportEnv) (st : ImportState) (msg : HistMessage) :
    ImportState × Bool :=
  if ¬ msg.author_bot then (st, false)
  else
    match msg.embeds with
    | [] => (st, false)
    | embed :: _ =>
      match truthyStr embed.footer_text with
      | none => (st, false)
      | some ftext =>
        if ¬ pyStartsWith ftext "Submitted by" then (st, false)
        else if pyStartsWith ftext "Submitted by" then
          if (match truthyStr embed.image_url with
              | some url => env.fetchRaises url
              | none => false) then
            (st, true)
          else if ¬ env.sendOk st.posted then
            (st, true)
          else
            let iss : Issue :=
              { name := embed.title
                content := embed.description
                added_date := embed.timestamp
                added_by_id := 0
                added_by_tag := dropTwoWords ftext
                image := match truthyStr embed.image_url with
                  | some url => (env.fetchImage url).map (fun b => ⟨b, "image/png"⟩)
                  | none => none
                button_links := some msg.buttons
                color := some embed.color
                panic_string := ""
                message_id := env.sendId st.posted }
            let newStore := if (get_issue st.store iss.name).isSome then
                edit_issue st.store iss
              else
                add_issue st.store iss
            if env.deleteOk msg.id then
              ({ store := newStore, deleted := st.deleted ++ [msg.id],
                 posted := st.posted + 1 }, false)
            else
              ({ store := newStore, deleted := st.deleted,
                 posted := st.posted + 1 }, true)
        else if pyStartsWith embed.title "Table of" then
          if env.deleteOk msg.id then
            ({ st with deleted := st.deleted ++ [msg.id] }, false)
          else
            (st, true)
        else (st, false)

/-- The history scan: one `importMsg` step per message, oldest first; a
raising step ends the scan, leaving every later message unprocessed. -/
def importLoop (env : ImportEnv) : ImportState → List HistMessage → ImportState × Bool
  | st, [] => (st, false)
  | st, msg :: rest =>
    if (importMsg env st msg).2 then
      ((importMsg env st msg).1, true)
    else
      importLoop env (importMsg env st msg).1 rest

/-- issues.py:156-204, over the oldest-first message history: the final
state and whether the scan aborted on a raising step. -/
def do_import (env : ImportEnv) (msgs : List HistMessage) (store : List Issue) :
    ImportState × Bool :=
  importLoop env { store := store, deleted := [], posted := 0 } msgs

/-! ## Helper lemmas -/

/-- The rebuild loop seen through description lengths and page numbers is
exactly `paginateSim` on the rendered line lengths. -/
theorem refreshLoop_sim (gid cid : Nat) (issues : List Issue) :
    ∀ (title : String) (i : Nat) (desc : String) (page : Nat),
      ((refreshLoop gid cid title i desc page issues).pages.map
          (fun pg => (pg.description.length, pg.page)),
        (refreshLoop gid cid title i desc page issues).desc.length,
        (refreshLoop gid cid title i desc page issues).page)
      = ((paginateSim desc.length page (lineLens gid cid i issues)).pages,
        (paginateSim desc.length page (lineLens gid cid i issues)).descLen,
        (paginateSim desc.length page (lineLens gid cid i issues)).page) := by
  induction issues with
  | nil =>
    intro title i desc page
    simp [refreshLoop, paginateSim, lineLens]
  | cons issue rest ih =>
    intro title i desc page
    simp only [refreshLoop, lineLens, paginateSim]
    by_cases h : (desc ++ indexLine gid cid i issue).length > 3072
    · have h2 : desc.length + (indexLine gid cid i issue).length > 3072 := by
        rw [← String.length_append]; exact h
      rw [if_pos h, if_pos h2]
      have ih1 := ih "" (i + 1) "" (page + 1)
      have e0 : ("" : String).length = 0 := rfl
      rw [e0] at ih1
      simp only [Prod.mk.injEq] at ih1 ⊢
      refine ⟨?_, ?_, ?_⟩
      · simp only [List.map_cons, ih1.1, String.length_append]
      · exact ih1.2.1
      · exact ih1.2.2
    · have h2 : ¬ desc.length + (indexLine gid cid i issue).length > 3072 := by
        rw [← String.length_append]; exact h
      rw [if_neg h, if_neg h2]
      have ih1 := ih title (i + 1) (desc ++ indexLine gid cid i issue) page
      rw [String.length_append] at ih1
      exact ih1

/-- The whole rebuild seen through description lengths and page numbers
is `simPages` on the rendered line lengths. -/
theorem refresh_sim (gid cid : Nat) (issues : List Issue) :
    (refresh_common_issues gid cid issues).map (fun pg => (pg.description.length, pg.page))
      = simPages (lineLens gid cid 0 issues) := by
  have h := refreshLoop_sim gid cid issues "Table of Contents" 0 "" 0
  have e0 : ("" : String).length = 0 := rfl
  rw [e0] at h
  simp only [Prod.mk.injEq] at h
  obtain ⟨h1, h2, h3⟩ := h
  unfold refresh_common_issues simPages
  rw [List.map_append, h1, h2, h3]
  by_cases hc : (paginateSim 0 0 (lineLens gid cid 0 issues)).descLen > 0
  · rw [if_pos hc, if_pos hc]
    simp only [List.map_cons, List.map_nil, h2, h3]
  · rw [if_neg hc, if_neg hc]
    simp

/-- Every page flushed by the simulated loop from a buffer of length at
most 3072 is bounded by 3072 plus one line, and the loop always exits
with a buffer of length at most 3072. -/
theorem paginateSim_bound (L : Nat) :
    ∀ (lens : List Nat) (d p : Nat), d ≤ 3072 → (∀ l ∈ lens, l ≤ L) →
      (∀ pr ∈ (paginateSim d p lens).pages, pr.1 ≤ 3072 + L) ∧
        (paginateSim d p lens).descLen ≤ 3072 := by
  intro lens
  induction lens with
  | nil =>
    intro d p hd _
    simpa [paginateSim] using hd
  | cons l rest ih =>
    intro d p hd hl
    simp only [paginateSim]
    by_cases h : d + l > 3072
    · rw [if_pos h]
      have hrec := ih 0 (p + 1) (by omega) (fun x hx => hl x (List.mem_cons_of_mem _ hx))
      refine ⟨?_, hrec.2⟩
      intro pr hpr
      rcases List.mem_cons.mp hpr with h1 | h2
      · have hll : l ≤ L := hl l (List.mem_cons_self _ _)
        rw [h1]
        simp only
        omega
      · exact hrec.1 pr h2
    · rw [if_neg h]
      exact ih (d + l) p (by omega) (fun x hx => hl x (List.mem_cons_of_mem _ hx))

/-- The alternation never matches at the end of the label. -/
theorem emojiMatchAt_nil : emojiMatchAt [] = none := rfl

/-- `emojiSearch` returns the match at the leftmost matching position:
if the alternation matches at position `i` and at no earlier position,
the search returns that match. -/
theorem emojiSearch_eq_some :
    ∀ (cs : List Char) (i : Nat) (m : List Char),
      emojiMatchAt (cs.drop i) = some m →
      (∀ j, j < i → emojiMatchAt (cs.drop j) = none) →
      emojiSearch cs = some m := by
  intro cs
  induction cs with
  | nil =>
    intro i m hm _
    rw [List.drop_nil] at hm
    rw [emojiMatchAt_nil] at hm
    cases hm
  | cons c rest ih =>
    intro i m hm hnone
    cases i with
    | zero =>
      rw [List.drop_zero] at hm
      unfold emojiSearch
      rw [hm]
    | succ j =>
      have h0 : emojiMatchAt (c :: rest) = none := by
        have := hnone 0 (Nat.succ_pos j)
        rwa [List.drop_zero] at this
      unfold emojiSearch
      rw [h0]
      exact ih j m hm (fun j2 hj2 => hnone (j2 + 1) (Nat.succ_lt_succ hj2))

/-- If the alternation matches at no position, the search fails. -/
theorem emojiSearch_eq_none :
    ∀ (cs : List Char),
      (∀ i, emojiMatchAt (cs.drop i) = none) →
      emojiSearch cs = none := by
  intro cs
  induction cs with
  | nil => intro _; rfl
  | cons c rest ih =>
    intro hnone
    have h0 : emojiMatchAt (c :: rest) = none := by
      have := hnone 0
      rwa [List.drop_zero] at this
    unfold emojiSearch
    rw [h0]
    exact ih (fun i => hnone (i + 1))

/-- Looking an absent name up after appending a record finds exactly the
appended record when its name matches. -/
theorem get_issue_append_single (store : List Issue) (name : String) (x : Issue)
    (h : get_issue store name = none) :
    get_issue (store ++ [x]) name = if x.name == name then some x else none := by
  induction store with
  | nil =>
    unfold get_issue
    simp only [List.nil_append, List.find?]
    cases hb : x.name == name with
    | true => simp [hb]
    | false => simp [hb]
  | cons a l ih =>
    unfold get_issue at h ih ⊢
    simp only [List.cons_append, List.find?] at h ⊢
    cases ha : (a.name == name) with
    | true => rw [ha] at h; cases h
    | false =>
      rw [ha] at h
      exact ih h

/-- A name absent from the store matches no record. -/
theorem filter_name_nil (store : List Issue) (name : String)
    (h : get_issue store name = none) :
    store.filter (fun i => i.name == name) = [] := by
  refine List.filter_eq_nil_iff.mpr ?_
  intro a ha
  have := List.find?_eq_none.mp h a ha
  simpa using this

/-- Replacing by name and then looking the name up yields the replacement,
provided the name was present. -/
theorem get_issue_edit (store : List Issue) (name : String) (x : Issue)
    (hx : x.name = name) (h : (get_issue store name).isSome) :
    get_issue (edit_issue store x) name = some x := by
  induction store with
  | nil => simp [get_issue, List.find?] at h
  | cons a l ih =>
    unfold get_issue at h
    simp only [List.find?] at h
    unfold get_issue edit_issue at ih ⊢
    simp only [List.map_cons, List.find?]
    cases ha : (a.name == name) with
    | true =>
      have hax : (a.name == x.name) = true := by
        rw [hx]; exact ha
      have hxx : (x.name == name) = true := by simp [hx]
      rw [if_pos hax, hxx]
    | false =>
      have hax : (a.name == x.name) = false := by
        rw [hx]; exact ha
      rw [if_neg (by simp [hax]), ha]
      rw [ha] at h
      exact ih h

/-- When every send succeeds, the reindex loop updates every issue's
message id in order and never aborts. -/
theorem reindexLoop_sendOk (env : ReindexEnv) (hsend : ∀ k, env.sendOk k = true) :
    ∀ (issues : List Issue) (k : Nat),
      (reindexLoop env k issues).1 = reindexMap env k issues ∧
        (reindexLoop env k issues).2.2 = false := by
  intro issues
  induction issues with
  | nil => intro k; simp [reindexLoop, reindexMap]
  | cons issue rest ih =>
    intro k
    simp only [reindexLoop, reindexMap, hsend k, if_true]
    exact ⟨by rw [(ih (k + 1)).1], (ih (k + 1)).2⟩

/-- `reindexMap` preserves the store's length. -/
theorem reindexMap_length (env : ReindexEnv) :
    ∀ (issues : List Issue) (k : Nat),
      (reindexMap env k issues).length = issues.length := by
  intro issues
  induction issues with
  | nil => intro k; simp [reindexMap]
  | cons issue rest ih =>
    intro k
    simp [reindexMap, ih (k + 1)]

/-- Elementwise description of `reindexMap`. -/
theorem reindexMap_getElem (env : ReindexEnv) :
    ∀ (issues : List Issue) (k j : Nat),
      (reindexMap env k issues)[j]?
        = (issues[j]?).map (fun iss => { iss with message_id := env.sendId (k + j) }) := by
  intro issues
  induction issues with
  | nil => intro k j; simp [reindexMap]
  | cons issue rest ih =>
    intro k j
    cases j with
    | zero => simp [reindexMap]
    | succ j =>
      simp only [reindexMap, List.getElem?_cons_succ]
      rw [ih (k + 1) j]
      have : k + 1 + j = k + (j + 1) := by omega
      rw [this]

/-! ## Concrete inputs for the pagination claims -/

/-- Zero-padded three-digit rendering, used to build distinct 10-character
issue names. -/
def pad3 (k : Nat) : String :=
  (if k < 10 then "00" else if k < 100 then "0" else "") ++ Nat.repr k

/-- A store of exactly 500 issues whose names are each 10 characters long,
posted with 18-digit (realistic snowflake) message ids. -/
def issues500 : List Issue :=
  (List.range 500).map (fun k =>
    { name := "iss" ++ pad3 k ++ "abcd"
      content := "c"
      added_date := 0
      added_by_id := 1
      added_by_tag := "tag"
      image := none
      button_links := none
      color := some 1
      panic_string := ""
      message_id := 100000000000000000 + k })

/-- An 18-digit guild id. -/
def gid500 : Nat := 314159265358979323

/-- An 18-digit channel id. -/
def cid500 : Nat := 271828182845904523

/-- The (description length, page number) pairs of the pages the rebuild
posts for `issues500`: the rendered lines are 103-105 characters long
(52392 characters in total), so 17 pages result. -/
def pages500sim : List (Nat × Nat) :=
  [(3111, 1), (3120, 2), (3120, 3), (3141, 4), (3150, 5), (3150, 6), (3150, 7),
    (3150, 8), (3150, 9), (3150, 10), (3150, 11), (3150, 12), (3150, 13),
    (3150, 14), (3150, 15), (3150, 16), (2100, 17)]

set_option maxRecDepth 100000 in
/-- Evaluation of the rebuild on `issues500`, through the length-level
simulation. -/
theorem issues500_sim :
    (refresh_common_issues gid500 cid500 issues500).map
        (fun pg => (pg.description.length, pg.page))
      = pages500sim := by
  rw [refresh_sim]
  decide

/-! ## Claim C1 -/

set_option maxRecDepth 100000 in
/-- C1 counterexample: for the store of exactly 500 issues with 10-character
names (`issues500`), the rebuild does not post 3 pages.  Each rendered line
embeds the full message URL, so lines are 103-105 characters, not ~15, and
the rebuild posts 17 pages. -/
theorem index_500_issues_not_three_pages :
    issues500.length = 500 ∧
    (∀ i ∈ issues500, i.name.length = 10) ∧
    (refresh_common_issues gid500 cid500 issues500).length ≠ 3 := by
  refine ⟨by decide, by decide, ?_⟩
  have h := congrArg List.length issues500_sim
  rw [List.length_map] at h
  rw [h]
  decide

set_option maxRecDepth 100000 in
/-- C1 amended: for the issue store of exactly 500 issues whose names are
each 10 characters (`issues500`, with 18-digit guild/channel/message ids),
the rendered index lines are 103-105 characters each (not ~15: each line
embeds the full message URL), and the rebuild posts exactly 17 pages,
whose footers carry the page numbers 1..17 in order, and the persisted
index message-id list has length exactly 17. -/
theorem index_500_issues_pagination :
    issues500.length = 500 ∧
    (∀ i ∈ issues500, i.name.length = 10) ∧
    (∀ l ∈ lineLens gid500 cid500 0 issues500, 103 ≤ l ∧ l ≤ 105) ∧
    (refresh_common_issues gid500 cid500 issues500).length = 17 ∧
    (refresh_common_issues gid500 cid500 issues500).map IndexPage.footer
      = (List.range' 1 17).map (fun n => "Page " ++ Nat.repr n) ∧
    ∀ sendId : Nat → Nat,
      (issues_list_ids sendId (refresh_common_issues gid500 cid500 issues500)).length = 17 := by
  have hlen : (refresh_common_issues gid500 cid500 issues500).length = 17 := by
    have h := congrArg List.length issues500_sim
    rw [List.length_map] at h
    rw [h]
    decide
  refine ⟨by decide, by decide, by decide, hlen, ?_, ?_⟩
  · have hfe : IndexPage.footer
        = (fun pr : Nat × Nat => "Page " ++ Nat.repr pr.2)
            ∘ (fun pg : IndexPage => (pg.description.length, pg.page)) := rfl
    rw [hfe, ← List.map_map, issues500_sim]
    decide
  · intro sendId
    simp [issues_list_ids, hlen]

/-! ## Claim C2 -/

/-- A store of 31 issues with 10-character names and 18-digit ids; its
first 30 rendered lines accumulate to 3111 characters. -/
def issues31 : List Issue :=
  (List.range 31).map (fun k =>
    { name := "iss" ++ pad3 k ++ "abcd"
      content := "c"
      added_date := 0
      added_by_id := 1
      added_by_tag := "tag"
      image := none
      button_links := none
      color := some 1
      panic_string := ""
      message_id := 100000000000000000 + k })

/-- C2 counterexample: the rebuild posts a page whose description is 3111
characters long, exceeding 3072, because the buffer is flushed only after
the append that pushed it past 3072 (issues.py:109-110). -/
theorem index_page_exceeds_3072 :
    ∃ pg ∈ refresh_common_issues gid500 cid500 issues31, 3072 < pg.description.length := by
  have hs : simPages (lineLens gid500 cid500 0 issues31) = [(3111, 1), (104, 2)] := by
    decide
  have h := refresh_sim gid500 cid500 issues31
  rw [hs] at h
  have hm : (3111, 1) ∈ (refresh_common_issues gid500 cid500 issues31).map
      (fun pg => (pg.description.length, pg.page)) := by
    rw [h]
    decide
  obtain ⟨pg, hpg, hf⟩ := List.mem_map.mp hm
  refine ⟨pg, hpg, ?_⟩
  have h1 : pg.description.length = 3111 := congrArg Prod.fst hf
  omega

/-- C2 amended: a page buffer is flushed as soon as it exceeds 3072
characters (the overflow check runs after each append, issues.py:109-110),
so when every rendered line is at most `L` characters long, every posted
page's description is at most `3072 + L` characters. -/
theorem index_pages_bounded (gid cid L : Nat) (issues : List Issue)
    (hL : ∀ l ∈ lineLens gid cid 0 issues, l ≤ L) :
    ∀ pg ∈ refresh_common_issues gid cid issues, pg.description.length ≤ 3072 + L := by
  intro pg hpg
  have hmem : (pg.description.length, pg.page) ∈ simPages (lineLens gid cid 0 issues) := by
    rw [← refresh_sim gid cid issues]
    exact List.mem_map_of_mem _ hpg
  have hb := paginateSim_bound L (lineLens gid cid 0 issues) 0 0 (by omega) hL
  unfold simPages at hmem
  rcases List.mem_append.mp hmem with h1 | h2
  · exact hb.1 _ h1
  · by_cases hc : (paginateSim 0 0 (lineLens gid cid 0 issues)).descLen > 0
    · rw [if_pos hc] at h2
      have h3 := List.mem_singleton.mp h2
      have h4 : pg.description.length
          = (paginateSim 0 0 (lineLens gid cid 0 issues)).descLen :=
        congrArg Prod.fst h3
      omega
    · rw [if_neg hc] at h2
      cases h2

/-- A one-issue store whose rendered line is 43 characters long. -/
def wIssue : Issue :=
  { name := "w"
    content := "c"
    added_date := 0
    added_by_id := 1
    added_by_tag := "t"
    image := none
    button_links := none
    color := some 1
    panic_string := ""
    message_id := 1 }

/-- C2 witness: the bound instantiated on the one-page rebuild of a
one-issue store. -/
theorem index_pages_bounded_witness :
    (⟨"Table of Contents", indexLine 1 1 0 wIssue, 1⟩ : IndexPage).description.length
      ≤ 3072 + 60 :=
  index_pages_bounded 1 1 60 [wIssue] (by decide) _ (by decide)

/-! ## Claim C3 -/

/-- An import environment in which no platform step fails. -/
def env3 : ImportEnv :=
  { fetchImage := fun _ => none
    fetchRaises := fun _ => false
    sendOk := fun _ => true
    sendId := fun k => 1000 + k
    deleteOk := fun _ => true }

/-- A legacy index page exactly as the rebuild itself posts them:
bot-authored, first embed titled "Table of Contents", footer "Page 1". -/
def tocPage : HistMessage :=
  { author_bot := true
    embeds := [{ title := "Table of Contents"
                 description := "1. [a](u)"
                 timestamp := 0
                 color := 0
                 footer_text := some "Page 1"
                 image_url := none }]
    buttons := []
    id := 777 }

/-- C3: the import scan leaves a legacy index page (embed title starting
"Table of", footer "Page 1") completely untouched: it is not deleted and
produces no record, because the scan `continue`s on any footer that does
not start with "Submitted by" (issues.py:170-171), making the
`elif embed.title.startswith('Table of')` deletion branch (issues.py:199)
unreachable. -/
theorem import_leaves_legacy_index_page :
    pyStartsWith "Table of Contents" "Table of" = true ∧
    (tocPage.embeds.head?.map HistEmbed.footer_text) = some (some "Page 1") ∧
    do_import env3 [tocPage] [] = ({ store := [], deleted := [], posted := 0 }, false) := by
  exact ⟨by decide, by decide, by decide⟩

/-! ## Claim C4 -/

/-- C4 counterexample: the label "Click 🔥" has no leading emoji-like
token (the alternation does not match at position 0), yet the rendered
button carries the icon "🔥" and a modified label, because `re.search`
finds the token anywhere in the label (issues.py:71-76). -/
theorem render_button_nonleading_emoji :
    emojiMatchAt ("Click 🔥").data = none ∧
    renderButton "Click 🔥" "https://example.com"
      = { label := "Click", url := "https://example.com", emoji := some "🔥" } := by
  exact ⟨by decide, by decide⟩

/-- C4 amended: for every (label, url) pair, the label is scanned for the
first emoji-like token occurring anywhere in it (custom emoji reference or
supplementary-range unicode character) — formally, a token matched by the
alternation at some position `i` of the label while no earlier position
matches; if one is found, every occurrence of the (stripped) token is
removed from the label text, the result is trimmed, and the token is used
as the button's icon; if no position of the label matches, the button has
no icon and the label is unchanged.  A leading token, as in
"🔥 Click here", behaves as the claim states: icon "🔥", text
"Click here". -/
theorem render_button_emoji_spec (label url : String) :
    (∀ i m, emojiMatchAt (label.data.drop i) = some m →
      (∀ j, j < i → emojiMatchAt (label.data.drop j) = none) →
      renderButton label url
        = { label := pyStripStr (pyReplaceEmpty label (pyStripStr (String.mk m)))
            url := url
            emoji := some (pyStripStr (String.mk m)) }) ∧
    ((∀ i, emojiMatchAt (label.data.drop i) = none) →
      renderButton label url = { label := label, url := url, emoji := none }) ∧
    renderButton "🔥 Click here" url
      = { label := "Click here", url := url, emoji := some "🔥" } := by
  refine ⟨?_, ?_, ?_⟩
  · intro i m hm hnone
    have hs : emojiSearch label.data = some m := emojiSearch_eq_some label.data i m hm hnone
    unfold renderButton
    rw [hs]
  · intro hall
    have hs : emojiSearch label.data = none := emojiSearch_eq_none label.data hall
    unfold renderButton
    rw [hs]
  · have hs : emojiSearch ("🔥 Click here").data = some ['🔥'] := by decide
    unfold renderButton
    rw [hs]
    show ({ label := pyStripStr (pyReplaceEmpty "🔥 Click here" (pyStripStr (String.mk ['🔥'])))
            url := url
            emoji := some (pyStripStr (String.mk ['🔥'])) } : ButtonModel)
      = { label := "Click here", url := url, emoji := some "🔥" }
    have h1 : pyStripStr (pyReplaceEmpty "🔥 Click here" (pyStripStr (String.mk ['🔥'])))
        = "Click here" := by decide
    have h2 : pyStripStr (String.mk ['🔥']) = "🔥" := by decide
    rw [h1, h2]

/-- C4 witness: the amended theorem applied to a label whose first
emoji-like token is a custom-emoji reference at position 3, not at the
start. -/
theorem render_button_emoji_spec_witness :
    renderButton "Go <:boo:123>" "u"
      = { label := "Go", url := "u", emoji := some "<:boo:123>" } :=
  ((render_button_emoji_spec "Go <:boo:123>" "u").1 3
      ("<:boo:123>".data) (by decide) (by decide)).trans (by decide)

/-! ## Claim C5 -/

/-- A reindex world in which every stale-message deletion succeeds but the
first send fails. -/
def envC5 : ReindexEnv :=
  { fetchDeleteOk := fun _ => true
    sendOk := fun k => k != 0
    sendId := fun k => 600 + k }

/-- Two stored issues for the reindex runs. -/
def riList : List Issue :=
  [{ name := "a", content := "ca", added_date := 0, added_by_id := 1, added_by_tag := "t",
     image := none, button_links := none, color := some 1, panic_string := "",
     message_id := 11 },
   { name := "b", content := "cb", added_date := 0, added_by_id := 1, added_by_tag := "t",
     image := none, button_links := none, color := some 1, panic_string := "",
     message_id := 12 }]

/-- A bot-posted legacy issue message whose embed carries an image URL. -/
def imgMsg : HistMessage :=
  { author_bot := true
    embeds := [{ title := "Old issue"
                 description := "d"
                 timestamp := 0
                 color := 2
                 footer_text := some "Submitted by someone"
                 image_url := some "https://img" }]
    buttons := []
    id := 50 }

/-- A second bot-posted legacy issue message, without an image. -/
def okMsg : HistMessage :=
  { author_bot := true
    embeds := [{ title := "Another"
                 description := "d2"
                 timestamp := 0
                 color := 2
                 footer_text := some "Submitted by other"
                 image_url := none }]
    buttons := []
    id := 51 }

/-- An import world in which the image download raises. -/
def envI5 : ImportEnv :=
  { fetchImage := fun _ => some 1
    fetchRaises := fun _ => true
    sendOk := fun _ => true
    sendId := fun k => 1000 + k
    deleteOk := fun _ => true }

/-- The same import world with the download succeeding. -/
def envI5ok : ImportEnv :=
  { envI5 with fetchRaises := fun _ => false }

/-- The same import world, downloads fine but every send raising. -/
def envI5s : ImportEnv :=
  { envI5 with fetchRaises := fun _ => false, sendOk := fun _ => false }

/-- The same import world, but deleting the original messages raises. -/
def envI5d : ImportEnv :=
  { envI5 with fetchRaises := fun _ => false, deleteOk := fun _ => false }

/-- C5 counterexample.  Reindex: when the send for the first issue fails,
the batch aborts — the second issue keeps its old message id (it is never
reposted, although a fresh id was available) and the index rebuild never
runs.  Import: when the first message's image download raises, the scan
aborts with nothing imported and the second (perfectly importable, as the
`envI5ok` run shows) message is never processed; a send failure aborts the
same way, and a failing deletion of the original message aborts after the
first record was stored, leaving the original behind.  So a mid-batch
failure is not tolerated per-item in either batch. -/
theorem reindex_send_failure_aborts :
    (do_reindex envC5 1 1 riList).aborted = true ∧
    (do_reindex envC5 1 1 riList).store = riList ∧
    (do_reindex envC5 1 1 riList).pages = none ∧
    envC5.sendId 1 ≠ (riList.get ⟨1, by decide⟩).message_id ∧
    do_import envI5 [imgMsg, okMsg] [] = ({ store := [], deleted := [], posted := 0 }, true) ∧
    (do_import envI5ok [imgMsg, okMsg] []).1.store.length = 2 ∧
    (do_import envI5ok [imgMsg, okMsg] []).2 = false ∧
    do_import envI5s [imgMsg, okMsg] [] = ({ store := [], deleted := [], posted := 0 }, true) ∧
    (do_import envI5d [imgMsg, okMsg] []).2 = true ∧
    (do_import envI5d [imgMsg, okMsg] []).1.store.length = 1 ∧
    (do_import envI5d [imgMsg, okMsg] []).1.deleted = [] := by
  exact ⟨by decide, by decide, by decide, by decide, by decide, by decide, by decide,
    by decide, by decide, by decide, by decide⟩

/-- C5 amended: only the fetch-and-delete of an item's stale message in
the reindex batch is tolerated per-item (it sits in `try/except: pass`):
whatever the pattern of fetch/delete failures, if every send succeeds the
batch never aborts, every issue is reposted with its fresh message id,
and the index is rebuilt.  Any other failure aborts the remainder of the
batch: a reindex send failure (see the counterexample), and in the import
scan — which guards no step — any raising step (image download, send, or
deletion of the original) ends the scan at that message and every later
history message is left unprocessed. -/
theorem reindex_tolerates_fetch_failures (env : ReindexEnv) (gid cid : Nat)
    (store : List Issue) (hsend : ∀ k, env.sendOk k = true) :
    ((do_reindex env gid cid store).aborted = false ∧
      (do_reindex env gid cid store).store = reindexMap env 0 store ∧
      (do_reindex env gid cid store).pages
        = some (refresh_common_issues gid cid (reindexMap env 0 store))) ∧
    ∀ (ienv : ImportEnv) (st : ImportState) (msg : HistMessage) (rest : List HistMessage),
      (importMsg ienv st msg).2 = true →
      importLoop ienv st (msg :: rest) = ((importMsg ienv st msg).1, true) := by
  constructor
  · have h := reindexLoop_sendOk env hsend store 0
    unfold do_reindex
    rw [h.2]
    simp [h.1]
  · intro ienv st msg rest habort
    unfold importLoop
    rw [habort]
    simp

/-- A reindex world in which every stale-message deletion fails but every
send succeeds. -/
def envC5w : ReindexEnv :=
  { fetchDeleteOk := fun _ => false
    sendOk := fun _ => true
    sendId := fun k => 600 + k }

/-- C5 witness: the amended theorem on a reindex world where every
old-message deletion fails (the batch still completes) and on the import
scan whose first step raises while downloading the image (the scan stops
there, before the second message). -/
theorem reindex_tolerates_fetch_failures_witness :
    ((do_reindex envC5w 1 1 riList).aborted = false ∧
      (do_reindex envC5w 1 1 riList).store = reindexMap envC5w 0 riList ∧
      (do_reindex envC5w 1 1 riList).pages
        = some (refresh_common_issues 1 1 (reindexMap envC5w 0 riList))) ∧
    importLoop envI5 { store := [], deleted := [], posted := 0 } [imgMsg, okMsg]
      = ((importMsg envI5 { store := [], deleted := [], posted := 0 } imgMsg).1, true) :=
  ⟨(reindex_tolerates_fetch_failures envC5w 1 1 riList (fun _ => rfl)).1,
    (reindex_tolerates_fetch_failures envC5w 1 1 riList (fun _ => rfl)).2
      envI5 { store := [], deleted := [], posted := 0 } imgMsg [okMsg] (by decide)⟩

/-! ## Claim C6 -/

/-- An issue with the explicit color 0 (black). -/
def c6issue : Issue :=
  { name := "someissue"
    content := "c"
    added_date := 0
    added_by_id := 1
    added_by_tag := "t"
    image := none
    button_links := none
    color := some 0
    panic_string := ""
    message_id := 5 }

/-- C6 counterexample: an issue whose explicit color is set to 0 renders
with the hash-derived color 12633150, not with its explicit color, because
`Color(issue.color).value or hash_color(...)` (issues.py:54) treats the
falsy value 0 as absent. -/
theorem embed_color_zero_ignored :
    c6issue.color = some 0 ∧
    (prepare_issue_embed c6issue).color = hash_color "someissue" ∧
    hash_color "someissue" = 12633150 ∧
    (prepare_issue_embed c6issue).color ≠ 0 := by
  exact ⟨rfl, by decide, by decide, by decide⟩

/-- C6 amended: the rendered embed's color equals the issue's explicit
color whenever a nonzero one is set, and equals the color derived from
hashing the issue's name whenever the explicit color is absent or 0
(Python `or` treats the color value 0 like an absent one). -/
theorem embed_color_spec (issue : Issue) :
    (∀ v, issue.color = some v → v ≠ 0 → (prepare_issue_embed issue).color = v) ∧
    (issue.color = none → (prepare_issue_embed issue).color = hash_color issue.name) ∧
    (issue.color = some 0 → (prepare_issue_embed issue).color = hash_color issue.name) := by
  refine ⟨?_, ?_, ?_⟩
  · intro v hv hne
    simp [prepare_issue_embed, pyColorOr, hv, hne]
  · intro hv
    simp [prepare_issue_embed, pyColorOr, hv]
  · intro hv
    simp [prepare_issue_embed, pyColorOr, hv]

/-- An issue with the explicit nonzero color 255. -/
def c6wIssue : Issue :=
  { c6issue with name := "blueissue", color := some 255 }

/-- C6 witness: the amended theorem on an issue with explicit color 255. -/
theorem embed_color_spec_witness :
    (prepare_issue_embed c6wIssue).color = 255 :=
  (embed_color_spec c6wIssue).1 255 rfl (by decide)

/-! ## Claim C7 -/

/-- The modal outcome used in the concrete add/edit runs. -/
def mdW : ModalData :=
  { content := "body", added_by_id := 9, added_by_tag := "tag", added_date := 3 }

/-- C7: calling add twice with the same name fails with the duplicate-name
validation error (not a crash) on the second call, and the store
afterwards retains exactly the record created by the first call. -/
theorem add_rejects_duplicate
    (store store' : List Issue) (name : String)
    (image : Option Attachment) (pk col : Option String) (md : ModalData) (sid : Nat)
    (image2 : Option Attachment) (pk2 col2 : Option String)
    (md2 : Option ModalData) (sid2 : Nat)
    (h1 : IssuesGroup.add store name image pk col (some md) sid = .ok store') :
    IssuesGroup.add store' name image2 pk2 col2 md2 sid2
        = .error "Issue with that name already exists." ∧
    store' = store ++ [IssuesGroup.addPayload name md image pk col sid] ∧
    store'.filter (fun i => i.name == name)
        = [IssuesGroup.addPayload name md image pk col sid] := by
  unfold IssuesGroup.add at h1
  by_cases hd : (get_issue store name).isSome
  · rw [if_pos hd] at h1
    cases h1
  · rw [if_neg hd] at h1
    have hnone : get_issue store name = none := Option.not_isSome_iff_eq_none.mp hd
    have hx : (IssuesGroup.addPayload name md image pk col sid).name = name := rfl
    have hstore' : store' = store ++ [IssuesGroup.addPayload name md image pk col sid] := by
      cases image with
      | none =>
        simp only [IssuesGroup.addFinish, add_issue] at h1
        exact (Except.ok.inj h1).symm
      | some att =>
        replace h1 : (if ¬ IssuesGroup.allowed_content_types.contains att.content_type then
              (Except.error "Attached file was not an image!" : Except String (List Issue))
            else if att.size > 8000000 then Except.error "That image is too big!"
            else IssuesGroup.addFinish store name (some att) pk col (some md) sid)
            = Except.ok store' := h1
        by_cases hc : IssuesGroup.allowed_content_types.contains att.content_type = true
        · rw [if_neg (not_not_intro hc)] at h1
          by_cases hs : att.size > 8000000
          · rw [if_pos hs] at h1
            cases h1
          · rw [if_neg hs] at h1
            simp only [IssuesGroup.addFinish, add_issue] at h1
            exact (Except.ok.inj h1).symm
        · rw [if_pos hc] at h1
          cases h1
    have hbeq : ((IssuesGroup.addPayload name md image pk col sid).name == name) = true := by
      simp [hx]
    have hget : get_issue store' name
        = some (IssuesGroup.addPayload name md image pk col sid) := by
      rw [hstore', get_issue_append_single store name _ hnone, if_pos hbeq]
    refine ⟨?_, hstore', ?_⟩
    · unfold IssuesGroup.add
      rw [if_pos (by rw [hget]; rfl)]
    · rw [hstore', List.filter_append, filter_name_nil store name hnone]
      simp [hbeq]

/-- C7 witness: the duplicate rejection on a concrete one-record store. -/
theorem add_rejects_duplicate_witness :
    IssuesGroup.add ([] ++ [IssuesGroup.addPayload "dup" mdW none none none 10]) "dup"
        none none none (some mdW) 11
      = .error "Issue with that name already exists." ∧
    ([] ++ [IssuesGroup.addPayload "dup" mdW none none none 10] : List Issue)
      = [] ++ [IssuesGroup.addPayload "dup" mdW none none none 10] ∧
    ([] ++ [IssuesGroup.addPayload "dup" mdW none none none 10] : List Issue).filter
        (fun i => i.name == "dup")
      = [IssuesGroup.addPayload "dup" mdW none none none 10] :=
  add_rejects_duplicate [] ([] ++ [IssuesGroup.addPayload "dup" mdW none none none 10])
    "dup" none none none mdW 10 none none none (some mdW) 11 (by decide)

/-! ## Claim C8 -/

/-- C8: a reindex batch in which every send succeeds and every fresh id
differs from the stored ones completes without aborting, preserves the
store's length, and changes every issue's message_id to the id of its
freshly posted message while leaving name, content, color and
button_links unchanged. -/
theorem reindex_frame (env : ReindexEnv) (gid cid : Nat) (store : List Issue)
    (hsend : ∀ k, env.sendOk k = true)
    (hfresh : ∀ k, k < store.length → ∀ issue ∈ store, env.sendId k ≠ issue.message_id) :
    (do_reindex env gid cid store).aborted = false ∧
    (do_reindex env gid cid store).store.length = store.length ∧
    ∀ j old new, store[j]? = some old →
      (do_reindex env gid cid store).store[j]? = some new →
      new.message_id = env.sendId j ∧
      new.message_id ≠ old.message_id ∧
      new.name = old.name ∧ new.content = old.content ∧
      new.color = old.color ∧ new.button_links = old.button_links := by
  have h := reindexLoop_sendOk env hsend store 0
  have hst : (do_reindex env gid cid store).store = reindexMap env 0 store := by
    unfold do_reindex
    rw [h.2]
    simp [h.1]
  have hab : (do_reindex env gid cid store).aborted = false := by
    unfold do_reindex
    rw [h.2]
    simp
  refine ⟨hab, by rw [hst, reindexMap_length], ?_⟩
  intro j old new hold hnew
  rw [hst, reindexMap_getElem env store 0 j, hold] at hnew
  have hj : j < store.length := (List.getElem?_eq_some.mp hold).1
  have hmem : old ∈ store := List.getElem?_mem hold
  have hnew2 : new = { old with message_id := env.sendId (0 + j) } :=
    (Option.some.inj hnew).symm
  subst hnew2
  have hz : 0 + j = j := Nat.zero_add j
  rw [hz]
  exact ⟨rfl, hfresh j hj old hmem, rfl, rfl, rfl, rfl⟩

/-- A reindex world in which everything succeeds. -/
def envC8 : ReindexEnv :=
  { fetchDeleteOk := fun _ => true
    sendOk := fun _ => true
    sendId := fun k => 600 + k }

/-- The first issue of `riList`. -/
def c8old : Issue :=
  { name := "a", content := "ca", added_date := 0, added_by_id := 1, added_by_tag := "t",
    image := none, button_links := none, color := some 1, panic_string := "",
    message_id := 11 }

/-- The reposted form of `c8old` after a reindex under `envC8`. -/
def c8new : Issue :=
  { c8old with message_id := 600 }

/-- C8 witness: the frame theorem on the concrete two-issue store. -/
theorem reindex_frame_witness :
    c8new.message_id = envC8.sendId 0 ∧
    c8new.message_id ≠ c8old.message_id ∧
    c8new.name = c8old.name ∧ c8new.content = c8old.content ∧
    c8new.color = c8old.color ∧ c8new.button_links = c8old.button_links :=
  (reindex_frame envC8 1 1 riList (fun _ => rfl) (by decide)).2.2 0 c8old c8new
    (by decide) (by decide)

/-! ## Claim C9 -/

/-- A non-image attachment. -/
def badAtt : Attachment :=
  { content_type := "text/plain", size := 100, bytes := 5 }

/-- A stored issue carrying an image, for the edit runs. -/
def c9issue : Issue :=
  { name := "net", content := "old", added_date := 0, added_by_id := 1, added_by_tag := "t",
    image := some ⟨7, "image/png"⟩, button_links := none, color := some 1,
    panic_string := "", message_id := 3 }

/-- C9: the add command rejects a text/plain attachment with the
validation error, but the edit command accepts the very same attachment
and stores its bytes as the issue's image — no content-type check happens
on edit (issues.py:337-349), although the source's own comment there
announces one ("ensure the attached file is an image"). -/
theorem edit_accepts_non_image :
    IssuesGroup.add [] "other" (some badAtt) none none (some mdW) 1
        = .error "Attached file was not an image!" ∧
    IssuesGroup.edit [c9issue] "net" (some badAtt) none none (some "new")
        = .ok (edit_issue [c9issue]
            (IssuesGroup.editPayload c9issue "net" (some badAtt) none none "new")) ∧
    (IssuesGroup.editPayload c9issue "net" (some badAtt) none none "new").image
        = some ⟨5, "text/plain"⟩ := by
  exact ⟨by decide, by decide, by decide⟩

/-! ## Claim C10 -/

/-- C10: editing an existing issue without supplying a new image
attachment deletes the issue's stored image blob: the edit succeeds and
the record stored under the name afterwards has no image. -/
theorem edit_without_image_deletes_blob
    (store : List Issue) (name : String) (pk col : Option String) (nc : String)
    (issue : Issue) (h : get_issue store name = some issue) :
    IssuesGroup.edit store name none pk col (some nc)
        = .ok (edit_issue store (IssuesGroup.editPayload issue name none pk col nc)) ∧
    (IssuesGroup.editPayload issue name none pk col nc).image = none ∧
    get_issue (edit_issue store (IssuesGroup.editPayload issue name none pk col nc)) name
        = some (IssuesGroup.editPayload issue name none pk col nc) := by
  refine ⟨?_, rfl, ?_⟩
  · unfold IssuesGroup.edit
    rw [h]
    rfl
  · have hname : issue.name = name := by
      have h2 := List.find?_some h
      simpa using h2
    have hpn : (IssuesGroup.editPayload issue name none pk col nc).name = name := hname
    exact get_issue_edit store name _ hpn (by rw [h]; rfl)

/-- C10 witness: the deletion on a concrete store whose single issue
carries an image. -/
theorem edit_without_image_deletes_blob_witness :
    IssuesGroup.edit [c9issue] "net" none none none (some "t2")
        = .ok (edit_issue [c9issue] (IssuesGroup.editPayload c9issue "net" none none none "t2")) ∧
    (IssuesGroup.editPayload c9issue "net" none none none "t2").image = none ∧
    get_issue (edit_issue [c9issue] (IssuesGroup.editPayload c9issue "net" none none none "t2"))
        "net"
      = some (IssuesGroup.editPayload c9issue "net" none none none "t2") :=
  edit_without_image_deletes_blob [c9issue] "net" none none "t2" c9issue (by decide)

end Bridget
